import Mathlib

/-!
# A minimal OMAP UART driver (`serial.c`): embedding and verified properties

The driver is a platform driver with two callbacks, `serial_probe` (attach) and
`serial_remove` (detach).  Everything it does is a call to an external
collaborator (allocation, register-window mapping, runtime power management,
the device-tree clock property, logging) or an access to a memory-mapped
register.  The embedding is state passing over a `World`: the state of the
hardware behind the register window, and the log of every external call and
every bus access, in the order the code issues them.

The hardware is a parameter (`Device`): a read may return anything and may
change the hardware state, a write changes the hardware state.  The one loop of
the driver, the poll of the line-status register in `serial_write_char`, has no
bound in the source; it is embedded with fuel (the number of times the loop
condition may be evaluated) and returns `none` when the fuel runs out.
-/

namespace Serial

/-! ## Constants of the kernel headers -/

/-- Modelled from the spec: the register map of `uapi/linux/serial_reg.h`, a kernel
header that is not part of the repository.  Transmit-data register, index 0. -/
abbrev UART_TX : Nat := 0

/-- Modelled from the spec: `uapi/linux/serial_reg.h` is not part of the repository.
Divisor-latch low register, index 0 (shared with `UART_TX`, selected by DLAB). -/
abbrev UART_DLL : Nat := 0

/-- Modelled from the spec: `uapi/linux/serial_reg.h` is not part of the repository.
Divisor-latch high register, index 1. -/
abbrev UART_DLM : Nat := 1

/-- Modelled from the spec: `uapi/linux/serial_reg.h` is not part of the repository.
FIFO-control register, index 2. -/
abbrev UART_FCR : Nat := 2

/-- Modelled from the spec: `uapi/linux/serial_reg.h` is not part of the repository.
Line-control register, index 3. -/
abbrev UART_LCR : Nat := 3

/-- Modelled from the spec: `uapi/linux/serial_reg.h` is not part of the repository.
Line-status register, index 5. -/
abbrev UART_LSR : Nat := 5

/-- Modelled from the spec: `uapi/linux/serial_reg.h` is not part of the repository.
Mode-select register of the OMAP UART, index 8. -/
abbrev UART_OMAP_MDR1 : Nat := 0x08

/-- Modelled from the spec: `uapi/linux/serial_reg.h` is not part of the repository.
Divisor-latch access bit of the line-control register. -/
abbrev UART_LCR_DLAB : Nat := 0x80

/-- Modelled from the spec: `uapi/linux/serial_reg.h` is not part of the repository.
Word length of 8 data bits in the line-control register. -/
abbrev UART_LCR_WLEN8 : Nat := 0x03

/-- Modelled from the spec: `uapi/linux/serial_reg.h` is not part of the repository.
Clear-receive-FIFO bit of the FIFO-control register. -/
abbrev UART_FCR_CLEAR_RCVR : Nat := 0x02

/-- Modelled from the spec: `uapi/linux/serial_reg.h` is not part of the repository.
Clear-transmit-FIFO bit of the FIFO-control register. -/
abbrev UART_FCR_CLEAR_XMIT : Nat := 0x04

/-- Modelled from the spec: `uapi/linux/serial_reg.h` is not part of the repository.
Transmit-holding-register-empty bit of the line-status register. -/
abbrev UART_LSR_THRE : Nat := 0x20

/-- Modelled from the spec: the errno numbers of the kernel are not part of the
repository.  Out of memory. -/
abbrev ENOMEM : Nat := 12

/-- Modelled from the spec: `linux/err.h` is not part of the repository.  The largest
errno an error pointer can carry. -/
abbrev MAX_ERRNO : Nat := 4095

/-! ## Machine words -/

/-- Truncation to an unsigned 32-bit value (`u32`, `unsigned int`). -/
def u32 (n : Nat) : Nat := n % 2 ^ 32

/-- Modelled from the spec: `IS_ERR` of `linux/err.h`, which is not part of the
repository.  A pointer of the 32-bit machine is an error pointer when it lies in
the top `MAX_ERRNO` addresses (error codes are negative integers). -/
def IS_ERR (ptr : Nat) : Bool := decide (2 ^ 32 - MAX_ERRNO ≤ u32 ptr)

/-- Modelled from the spec: `PTR_ERR` of `linux/err.h`, which is not part of the
repository.  The pointer read as a signed 32-bit integer. -/
def PTR_ERR (ptr : Nat) : Int :=
  if 2 ^ 31 ≤ u32 ptr then (u32 ptr : Int) - 2 ^ 32 else (u32 ptr : Int)

/-! ## The world the driver runs in -/

/-- One external call or one bus access.  `readl addr` is a 32-bit read of the
byte address `addr`, `writel val addr` a 32-bit write of `val` to it. -/
inductive Event where
  | pr_info
  | dev_err
  | devm_kzalloc
  | devm_platform_ioremap_resource
  | pm_runtime_enable
  | pm_runtime_get_sync
  | pm_runtime_disable
  | of_property_read_u32
  | cpu_relax
  | readl (addr : Nat)
  | writel (val addr : Nat)
  deriving DecidableEq, Repr

/-- The hardware behind the register window: what a read at a byte address returns
and how reads and writes change the hardware state. -/
structure Device (σ : Type) where
  readl : σ → Nat → Nat × σ
  writel : σ → Nat → Nat → σ

/-- Hardware state and the log of everything the driver has done so far. -/
structure World (σ : Type) where
  hw : σ
  log : List Event

/-- The driver's per-device state (`struct serial_dev_data`): the base address of
the mapped register window. -/
structure serial_dev_data where
  regs : Nat

/-- What the external collaborators answer for one platform device: the pointer
`devm_kzalloc` returns (0 is `NULL`), the pointer `devm_platform_ioremap_resource`
returns (an error pointer on failure), the return value of
`of_property_read_u32` for `"clock-frequency"` and the value it stores on
success. -/
structure platform_device where
  kzalloc : Nat
  ioremap : Nat
  clk_err : Int
  clk_val : Nat

variable {σ : Type}

/-- Appends one event to the log. -/
def emit (e : Event) (w : World σ) : World σ :=
  { w with log := w.log ++ [e] }

/-! ## The driver -/

/-- The byte address `serial_data->regs + (offset * 4)` of register `offset`;
the product is computed in `unsigned int`. -/
def reg_addr (serial_data : serial_dev_data) (offset : Nat) : Nat :=
  serial_data.regs + u32 (offset * 4)

/-- `serial_read`: one `readl` at `regs + offset * 4`, returning a `u32`. -/
def serial_read (dev : Device σ) (serial_data : serial_dev_data) (offset : Nat)
    (w : World σ) : Nat × World σ :=
  let r := dev.readl w.hw (reg_addr serial_data offset)
  (u32 r.1, { hw := r.2, log := w.log ++ [Event.readl (reg_addr serial_data offset)] })

/-- `serial_write`: one `writel` of the `u32` value at `regs + offset * 4`. -/
def serial_write (dev : Device σ) (serial_data : serial_dev_data) (val offset : Nat)
    (w : World σ) : World σ :=
  { hw := dev.writel w.hw (u32 val) (reg_addr serial_data offset),
    log := w.log ++ [Event.writel (u32 val) (reg_addr serial_data offset)] }

/-- `init_ti_proc_specific_settings`: enable the power domain. -/
def init_ti_proc_specific_settings (w : World σ) : World σ :=
  emit Event.pm_runtime_get_sync (emit Event.pm_runtime_enable w)

/-- `destroy_ti_proc_specific_settings`: disable the power domain. -/
def destroy_ti_proc_specific_settings (w : World σ) : World σ :=
  emit Event.pm_runtime_disable w

/-- The divisor `uartclk / 16 / 115200` of `serial_configure_baud_rate`, in
`unsigned int` arithmetic. -/
def baud_divisor (uartclk : Nat) : Nat := u32 uartclk / 16 / 115200

/-- `serial_configure_baud_rate`: reads the clock frequency, programs the divisor
and clears the FIFOs.  Returns the error of the clock-frequency read, or 0. -/
def serial_configure_baud_rate (dev : Device σ) (pdev : platform_device)
    (serial_data : serial_dev_data) (w : World σ) : Int × World σ :=
  let w := emit Event.of_property_read_u32 w
  if pdev.clk_err ≠ 0 then
    (pdev.clk_err, emit Event.dev_err w)
  else
    let uartclk := u32 pdev.clk_val
    let baud_divisor := baud_divisor uartclk
    let w := serial_write dev serial_data 0x07 UART_OMAP_MDR1 w
    let w := serial_write dev serial_data 0x00 UART_LCR w
    let w := serial_write dev serial_data UART_LCR_DLAB UART_LCR w
    let w := serial_write dev serial_data (baud_divisor &&& 0xff) UART_DLL w
    let w := serial_write dev serial_data ((baud_divisor >>> 8) &&& 0xff) UART_DLM w
    let w := serial_write dev serial_data UART_LCR_WLEN8 UART_LCR w
    let w := serial_write dev serial_data 0x00 UART_OMAP_MDR1 w
    let w := serial_write dev serial_data (UART_FCR_CLEAR_RCVR ||| UART_FCR_CLEAR_XMIT)
      UART_FCR w
    (0, w)

/-- The `while` loop of `serial_write_char`: read the line-status register, leave
when THRE is set, otherwise `cpu_relax` and go round again.  `fuel` bounds the
number of times the condition is evaluated; `none` when it runs out. -/
def serial_write_char_loop (dev : Device σ) (serial_data : serial_dev_data) :
    Nat → World σ → Option (World σ)
  | 0, _ => none
  | fuel + 1, w =>
    let r := serial_read dev serial_data UART_LSR w
    if r.1 &&& UART_LSR_THRE = 0 then
      serial_write_char_loop dev serial_data fuel (emit Event.cpu_relax r.2)
    else
      some r.2

/-- `serial_write_char`: wait for THRE, then write the character to the
transmit-data register.  The parameter is a `char`, eight bits and unsigned in the
kernel's ABI, so passing it on as `u32` zero-extends it. -/
def serial_write_char (dev : Device σ) (serial_data : serial_dev_data) (c : Nat)
    (fuel : Nat) (w : World σ) : Option (World σ) :=
  match serial_write_char_loop dev serial_data fuel w with
  | none => none
  | some w => some (serial_write dev serial_data (c % 256) UART_TX w)

/-- `serial_probe`: attach.  `none` when the poll loop runs out of fuel. -/
def serial_probe (dev : Device σ) (pdev : platform_device) (fuel : Nat)
    (w : World σ) : Option (Int × World σ) :=
  let w := emit Event.pr_info w
  let w := emit Event.devm_kzalloc w
  if pdev.kzalloc = 0 then
    some (-(ENOMEM : Int), w)
  else
    let w := emit Event.devm_platform_ioremap_resource w
    let serial_data : serial_dev_data := { regs := pdev.ioremap }
    if IS_ERR serial_data.regs then
      some (PTR_ERR serial_data.regs, w)
    else
      let w := init_ti_proc_specific_settings w
      let r := serial_configure_baud_rate dev pdev serial_data w
      if r.1 ≠ 0 then
        some (r.1, destroy_ti_proc_specific_settings r.2)
      else
        match serial_write_char dev serial_data 120 fuel r.2 with
        | none => none
        | some w => some (0, w)

/-- `serial_remove`: detach. -/
def serial_remove (w : World σ) : Int × World σ :=
  (0, destroy_ti_proc_specific_settings (emit Event.pr_info w))

/-! ## Reading a log -/

/-- The events a run added to the log: those of `w'` after the ones of `w`. -/
def events_since (w w' : World σ) : List Event :=
  w'.log.drop w.log.length

/-- Whether an event is a register read. -/
def Event.isRead : Event → Bool
  | Event.readl _ => true
  | _ => false

/-- Whether an event is a register write. -/
def Event.isWrite : Event → Bool
  | Event.writel _ _ => true
  | _ => false

/-- The values written to the byte address `addr`, in order. -/
def writes_to (addr : Nat) : List Event → List Nat
  | [] => []
  | Event.writel v a :: es => if a = addr then v :: writes_to addr es else writes_to addr es
  | _ :: es => writes_to addr es

/-- The byte address each register access of a log goes to, in order. -/
def targets : List Event → List Nat
  | [] => []
  | Event.writel _ a :: es => a :: targets es
  | Event.readl a :: es => a :: targets es
  | _ :: es => targets es

/-- The seven steps of the specification's baud-rate sequence for a divisor `d`:
mode-select = 0x07, line-control = 0x00, line-control = DLAB, divisor-low = low
byte, divisor-high = high byte, line-control = 8 data bits, mode-select = 0x00. -/
def baud_rate_sequence (serial_data : serial_dev_data) (d : Nat) : List Event :=
  [ Event.writel 0x07 (reg_addr serial_data UART_OMAP_MDR1),
    Event.writel 0x00 (reg_addr serial_data UART_LCR),
    Event.writel UART_LCR_DLAB (reg_addr serial_data UART_LCR),
    Event.writel (d &&& 0xff) (reg_addr serial_data UART_DLL),
    Event.writel ((d >>> 8) &&& 0xff) (reg_addr serial_data UART_DLM),
    Event.writel UART_LCR_WLEN8 (reg_addr serial_data UART_LCR),
    Event.writel 0x00 (reg_addr serial_data UART_OMAP_MDR1) ]

/-- The specification's FIFO reset: one write of both clear bits to the
FIFO-control register. -/
def fifo_reset (serial_data : serial_dev_data) : Event :=
  Event.writel 0x06 (reg_addr serial_data UART_FCR)

/-- The register accesses of a log: its reads and writes, in order. -/
def register_accesses (es : List Event) : List Event :=
  es.filter (fun e => e.isRead || e.isWrite)

/-- The value the read number `k + 1` of the line-status register returns when the
register is read again and again from the hardware state `s`. -/
def lsr_reads (dev : Device σ) (serial_data : serial_dev_data) : Nat → σ → Nat
  | 0, s => u32 (dev.readl s (reg_addr serial_data UART_LSR)).1
  | k + 1, s => lsr_reads dev serial_data k (dev.readl s (reg_addr serial_data UART_LSR)).2

/-- The hardware state after `k` reads of the line-status register from the
hardware state `s`. -/
def lsr_state (dev : Device σ) (serial_data : serial_dev_data) : Nat → σ → σ
  | 0, s => s
  | k + 1, s => lsr_state dev serial_data k (dev.readl s (reg_addr serial_data UART_LSR)).2

/-- The log of `n` unsuccessful polls: a read of the line-status register and a
`cpu_relax`, `n` times. -/
def polls (serial_data : serial_dev_data) : Nat → List Event
  | 0 => []
  | n + 1 =>
    Event.readl (reg_addr serial_data UART_LSR) :: Event.cpu_relax :: polls serial_data n

/-- Whether the DLAB bit is set in the value last written to the line-control
register; `none` (no write yet) counts as not set. -/
def dlab_set : Option Nat → Bool
  | none => false
  | some v => v &&& UART_LCR_DLAB != 0

/-- Every register write of a log as (byte address, value, DLAB), where DLAB is
the bit of the most recent value written to the line-control register at the
byte address `lcr`, this write included; `last` is that value before the log. -/
def dlab_trace (lcr : Nat) : Option Nat → List Event → List (Nat × Nat × Bool)
  | _, [] => []
  | last, Event.writel v a :: es =>
    (a, v, dlab_set (if a = lcr then some v else last))
      :: dlab_trace lcr (if a = lcr then some v else last) es
  | last, _ :: es => dlab_trace lcr last es

/-- The log of a successful attach as the specification orders it: the entry
message, allocation, mapping, power-domain enable, the clock-frequency read, the
seven baud-rate writes, the FIFO reset, `n` unsuccessful polls, the successful
poll and the write of the sentinel 'x' to the transmit-data register. -/
def attach_log (pdev : platform_device) (n : Nat) : List Event :=
  Event.pr_info :: Event.devm_kzalloc :: Event.devm_platform_ioremap_resource
    :: Event.pm_runtime_enable :: Event.pm_runtime_get_sync :: Event.of_property_read_u32
    :: (baud_rate_sequence { regs := pdev.ioremap } (baud_divisor pdev.clk_val)
      ++ fifo_reset { regs := pdev.ioremap }
        :: (polls { regs := pdev.ioremap } n
          ++ [ Event.readl (reg_addr { regs := pdev.ioremap } UART_LSR),
               Event.writel 0x78 (reg_addr { regs := pdev.ioremap } UART_TX) ]))

/-! ## Test doubles -/

/-- A fake register window: a store in which a read of a byte address returns the
value last written to it. -/
def fake_window : Device (Nat → Nat) where
  readl s a := (s a, s)
  writel s v a := fun b => if b = a then v else s b

/-- A scripted UART: the hardware state counts the reads; a read returns 0 (THRE
clear) for the first `busy` reads and 0x60 (THRE set) from then on; writes are
ignored. -/
def scripted_uart (busy : Nat) : Device Nat where
  readl n _ := (if n < busy then 0 else 0x60, n + 1)
  writel n _ _ := n

/-- The registers of a UART with a divisor latch, as the specification's glossary
describes it: while DLAB is set in the line-control register, indices 0 and 1 are
the divisor registers instead of the transmit-data and interrupt-enable
registers.  `tx` lists the bytes written to the transmit-data register and
`reads` counts the reads. -/
structure Uart16550 where
  lcr : Nat
  dll : Nat
  dlm : Nat
  ier : Nat
  tx : List Nat
  reads : Nat

/-- A UART with a divisor latch behind the register window at `base`: a read
returns 0 (THRE clear) for the first `busy` reads and 0x60 (THRE set) from then
on; a write to index 3 sets the line-control register; a write to index 0 or 1
goes to the divisor latch when DLAB is set and to the transmit-data or
interrupt-enable register when it is clear; other writes are ignored. -/
def banked_uart (base busy : Nat) : Device Uart16550 where
  readl s _ := (if s.reads < busy then 0 else 0x60, { s with reads := s.reads + 1 })
  writel s v a :=
    if a = reg_addr { regs := base } UART_LCR then { s with lcr := v }
    else if a = reg_addr { regs := base } UART_TX then
      if s.lcr &&& UART_LCR_DLAB = 0 then { s with tx := s.tx ++ [v] } else { s with dll := v }
    else if a = reg_addr { regs := base } UART_DLM then
      if s.lcr &&& UART_LCR_DLAB = 0 then { s with ier := v } else { s with dlm := v }
    else s

/-- A UART that never becomes ready: every read returns 0. -/
def stuck_uart : Device Unit where
  readl _ _ := (0, ())
  writel _ _ _ := ()

/-- A platform device for which every collaborator succeeds: a 48 MHz clock. -/
def pdev_48mhz : platform_device :=
  { kzalloc := 0xc1000000, ioremap := 0xfa022000, clk_err := 0, clk_val := 48000000 }

/-- A platform device whose clock frequency is 0, so that the divisor is 0. -/
def pdev_zero_clock : platform_device :=
  { kzalloc := 0xc1000000, ioremap := 0xfa022000, clk_err := 0, clk_val := 0 }

/-- A platform device whose clock-frequency property is missing (`-EINVAL`). -/
def pdev_no_clock : platform_device :=
  { kzalloc := 0xc1000000, ioremap := 0xfa022000, clk_err := -22, clk_val := 0 }

/-- A platform device whose register window cannot be mapped (`ERR_PTR(-EBUSY)`). -/
def pdev_no_window : platform_device :=
  { kzalloc := 0xc1000000, ioremap := 2 ^ 32 - 16, clk_err := 0, clk_val := 48000000 }

/-- A platform device for which the allocation fails. -/
def pdev_no_memory : platform_device :=
  { kzalloc := 0, ioremap := 0xfa022000, clk_err := 0, clk_val := 48000000 }

/-- The register window of the test devices. -/
def sd_test : serial_dev_data := { regs := 0xfa022000 }

/-- An empty log over a scripted UART that has not been read yet. -/
def w_scripted : World Nat := { hw := 0, log := [] }

/-- An empty log over a UART with a divisor latch just out of reset. -/
def w_banked : World Uart16550 :=
  { hw := { lcr := 0, dll := 0, dlm := 0, ier := 0, tx := [], reads := 0 }, log := [] }

/-- An empty log over the stuck UART. -/
def w_stuck : World Unit := { hw := (), log := [] }

/-- An empty log over a fake register window that reads 0 everywhere. -/
def w_fake : World (Nat → Nat) := { hw := fun _ => 0, log := [] }

/-! ## Basic facts -/

theorem u32_of_lt {n : Nat} (h : n < 2 ^ 32) : u32 n = n :=
  Nat.mod_eq_of_lt h

theorem u32_idem (n : Nat) : u32 (u32 n) = u32 n := by
  unfold u32; exact Nat.mod_mod _ _

theorem and_255_lt (n : Nat) : n &&& 255 < 2 ^ 32 :=
  lt_of_le_of_lt Nat.and_le_right (by norm_num)

theorem baud_divisor_u32 (n : Nat) : baud_divisor (u32 n) = baud_divisor n := by
  unfold baud_divisor; rw [u32_idem]

theorem reg_addr_val (sd : serial_dev_data) :
    reg_addr sd UART_TX = sd.regs ∧ reg_addr sd UART_DLL = sd.regs
    ∧ reg_addr sd UART_DLM = sd.regs + 4 ∧ reg_addr sd UART_FCR = sd.regs + 8
    ∧ reg_addr sd UART_LCR = sd.regs + 12 ∧ reg_addr sd UART_LSR = sd.regs + 20
    ∧ reg_addr sd UART_OMAP_MDR1 = sd.regs + 32 := by
  refine ⟨?_, ?_, ?_, ?_, ?_, ?_, ?_⟩ <;> rfl

@[simp]
theorem reg_addr_TX (sd : serial_dev_data) : reg_addr sd UART_TX = sd.regs :=
  (reg_addr_val sd).1

@[simp]
theorem reg_addr_DLM (sd : serial_dev_data) : reg_addr sd UART_DLM = sd.regs + 4 :=
  (reg_addr_val sd).2.2.1

@[simp]
theorem reg_addr_FCR (sd : serial_dev_data) : reg_addr sd UART_FCR = sd.regs + 8 :=
  (reg_addr_val sd).2.2.2.1

@[simp]
theorem reg_addr_LCR (sd : serial_dev_data) : reg_addr sd UART_LCR = sd.regs + 12 :=
  (reg_addr_val sd).2.2.2.2.1

@[simp]
theorem reg_addr_LSR (sd : serial_dev_data) : reg_addr sd UART_LSR = sd.regs + 20 :=
  (reg_addr_val sd).2.2.2.2.2.1

@[simp]
theorem reg_addr_MDR1 (sd : serial_dev_data) :
    reg_addr sd UART_OMAP_MDR1 = sd.regs + 32 :=
  (reg_addr_val sd).2.2.2.2.2.2

theorem events_since_append (w w' : World σ) (tr : List Event)
    (h : w'.log = w.log ++ tr) : events_since w w' = tr := by
  unfold events_since; rw [h]; exact List.drop_left _ _

/-- A failed clock-frequency read: the error is returned after the read and the
error message, the hardware is untouched. -/
theorem serial_configure_baud_rate_err (dev : Device σ) (pdev : platform_device)
    (sd : serial_dev_data) (w : World σ) (h : pdev.clk_err ≠ 0) :
    serial_configure_baud_rate dev pdev sd w
      = (pdev.clk_err,
          { hw := w.hw, log := w.log ++ [Event.of_property_read_u32, Event.dev_err] }) := by
  simp [serial_configure_baud_rate, h, emit]

/-- A successful clock-frequency read: 0 is returned. -/
theorem serial_configure_baud_rate_fst (dev : Device σ) (pdev : platform_device)
    (sd : serial_dev_data) (w : World σ) (h : pdev.clk_err = 0) :
    (serial_configure_baud_rate dev pdev sd w).1 = 0 := by
  simp [serial_configure_baud_rate, h]

/-- A successful clock-frequency read: the log grows by the read, the seven
baud-rate writes and the FIFO reset. -/
theorem serial_configure_baud_rate_log (dev : Device σ) (pdev : platform_device)
    (sd : serial_dev_data) (w : World σ) (h : pdev.clk_err = 0) :
    (serial_configure_baud_rate dev pdev sd w).2.log
      = w.log ++ (Event.of_property_read_u32 ::
          (baud_rate_sequence sd (baud_divisor pdev.clk_val) ++ [fifo_reset sd])) := by
  simp [serial_configure_baud_rate, h, emit, serial_write, baud_rate_sequence, fifo_reset,
    baud_divisor_u32, u32_of_lt (and_255_lt _)]
  simp only [u32]
  decide

theorem register_accesses_nil : register_accesses [] = [] := rfl

theorem register_accesses_cons (e : Event) (es : List Event) :
    register_accesses (e :: es)
      = if (e.isRead || e.isWrite) = true then e :: register_accesses es
        else register_accesses es := by
  simp [register_accesses, List.filter_cons]

theorem register_accesses_append (xs ys : List Event) :
    register_accesses (xs ++ ys) = register_accesses xs ++ register_accesses ys := by
  simp [register_accesses]

/-- The register accesses of `n` unsuccessful polls are `n` reads of the
line-status register. -/
theorem register_accesses_polls (sd : serial_dev_data) (n : Nat) :
    register_accesses (polls sd n) = List.replicate n (Event.readl (reg_addr sd UART_LSR)) := by
  induction n with
  | zero => rfl
  | succ n ih =>
    simp [polls, register_accesses_cons, List.replicate_succ, Event.isRead, Event.isWrite, ih]

/-- The poll loop leaves as soon as THRE is set: after `N` reads with THRE clear
and one with THRE set it returns, given fuel for `N + 1` evaluations of its
condition, and has logged `N` polls and the last read. -/
theorem serial_write_char_loop_ready (dev : Device σ) (sd : serial_dev_data) :
    ∀ (N fuel : Nat) (w : World σ),
      (∀ k, k < N → lsr_reads dev sd k w.hw &&& UART_LSR_THRE = 0) →
      lsr_reads dev sd N w.hw &&& UART_LSR_THRE ≠ 0 →
      N + 1 ≤ fuel →
      ∃ w', serial_write_char_loop dev sd fuel w = some w'
        ∧ w'.log = w.log ++ (polls sd N ++ [Event.readl (reg_addr sd UART_LSR)])
        ∧ w'.hw = lsr_state dev sd (N + 1) w.hw := by
  intro N
  induction N with
  | zero =>
    intro fuel w _ hready hfuel
    obtain ⟨f, rfl⟩ : ∃ f, fuel = f + 1 := ⟨fuel - 1, by omega⟩
    have h0 : ¬ (serial_read dev sd UART_LSR w).1 &&& UART_LSR_THRE = 0 := hready
    refine ⟨(serial_read dev sd UART_LSR w).2, ?_, ?_, rfl⟩
    · simp only [serial_write_char_loop, h0, if_false]
    · simp [serial_read, polls]
  | succ N ih =>
    intro fuel w hbusy hready hfuel
    obtain ⟨f, rfl⟩ : ∃ f, fuel = f + 1 := ⟨fuel - 1, by omega⟩
    have h0 : (serial_read dev sd UART_LSR w).1 &&& UART_LSR_THRE = 0 :=
      hbusy 0 (Nat.succ_pos N)
    obtain ⟨w', hw', hlog, hhw⟩ :=
      ih f (emit Event.cpu_relax (serial_read dev sd UART_LSR w).2)
        (fun k hk => hbusy (k + 1) (Nat.succ_lt_succ hk)) hready (by omega)
    refine ⟨w', ?_, ?_, ?_⟩
    · simp only [serial_write_char_loop, h0, if_true]
      exact hw'
    · rw [hlog]
      simp [serial_read, emit, polls]
    · rw [hhw]; rfl

/-- When the poll loop returns, one of the reads it made had THRE set. -/
theorem serial_write_char_loop_some (dev : Device σ) (sd : serial_dev_data) :
    ∀ (fuel : Nat) (w w' : World σ),
      serial_write_char_loop dev sd fuel w = some w' →
      ∃ n, n < fuel ∧ lsr_reads dev sd n w.hw &&& UART_LSR_THRE ≠ 0 := by
  intro fuel
  induction fuel with
  | zero => intro w w' h; simp [serial_write_char_loop] at h
  | succ f ih =>
    intro w w' h
    by_cases h0 : (serial_read dev sd UART_LSR w).1 &&& UART_LSR_THRE = 0
    · simp only [serial_write_char_loop, h0, if_true] at h
      obtain ⟨n, hn, hr⟩ := ih _ _ h
      exact ⟨n + 1, Nat.succ_lt_succ hn, hr⟩
    · exact ⟨0, Nat.succ_pos f, h0⟩

theorem writes_to_append (a : Nat) (xs ys : List Event) :
    writes_to a (xs ++ ys) = writes_to a xs ++ writes_to a ys := by
  induction xs with
  | nil => rfl
  | cons e es ih =>
    cases e with
    | writel v b => by_cases hb : b = a <;> simp [writes_to, hb, ih]
    | _ => simp [writes_to, ih]

/-- Polling writes nothing. -/
theorem writes_to_polls (a : Nat) (sd : serial_dev_data) (n : Nat) :
    writes_to a (polls sd n) = [] := by
  induction n with
  | zero => rfl
  | succ n ih => simp [polls, writes_to, ih]

/-- Polling logs nothing but reads of the line-status register and `cpu_relax`. -/
theorem count_polls (e : Event) (sd : serial_dev_data) (n : Nat)
    (h1 : e ≠ Event.readl (reg_addr sd UART_LSR)) (h2 : e ≠ Event.cpu_relax) :
    (polls sd n).count e = 0 := by
  induction n with
  | zero => rfl
  | succ n ih =>
    rw [reg_addr_LSR] at h1
    simp [polls, List.count_cons, ih, Ne.symm h1, Ne.symm h2]

/-- Polling leaves the DLAB annotation of the writes that follow unchanged. -/
theorem dlab_trace_polls (lcr : Nat) (last : Option Nat) (sd : serial_dev_data) (n : Nat)
    (es : List Event) :
    dlab_trace lcr last (polls sd n ++ es) = dlab_trace lcr last es := by
  induction n with
  | zero => rfl
  | succ n ih => simp [polls, dlab_trace, ih]

/-! ## Attach, case by case -/

/-- The hardware state `serial_configure_baud_rate` leaves depends on the hardware
state it starts from, not on the log. -/
theorem serial_configure_baud_rate_hw (dev : Device σ) (pdev : platform_device)
    (sd : serial_dev_data) (w1 w2 : World σ) (h : w1.hw = w2.hw) :
    (serial_configure_baud_rate dev pdev sd w1).2.hw
      = (serial_configure_baud_rate dev pdev sd w2).2.hw := by
  by_cases hclk : pdev.clk_err = 0 <;>
    simp [serial_configure_baud_rate, hclk, serial_write, emit, h]

/-- An error pointer carries a negative error code. -/
theorem PTR_ERR_neg (ptr : Nat) (h : IS_ERR ptr = true) : PTR_ERR ptr < 0 := by
  have hlt : u32 ptr < 2 ^ 32 := Nat.mod_lt _ (by norm_num)
  have hge : 2 ^ 32 - MAX_ERRNO ≤ u32 ptr := by simpa [IS_ERR] using h
  have h31 : 2 ^ 31 ≤ u32 ptr := le_trans (by norm_num) hge
  simp only [PTR_ERR, h31, if_true]
  have : (u32 ptr : Int) < 2 ^ 32 := by exact_mod_cast hlt
  linarith

/-- Attach when the allocation fails. -/
theorem serial_probe_no_memory (dev : Device σ) (pdev : platform_device) (fuel : Nat)
    (w : World σ) (halloc : pdev.kzalloc = 0) :
    serial_probe dev pdev fuel w
      = some (-(ENOMEM : Int),
          { hw := w.hw, log := w.log ++ [Event.pr_info, Event.devm_kzalloc] }) := by
  simp [serial_probe, halloc, emit]

/-- Attach when the mapping of the register window fails. -/
theorem serial_probe_no_window (dev : Device σ) (pdev : platform_device) (fuel : Nat)
    (w : World σ) (halloc : pdev.kzalloc ≠ 0) (hmap : IS_ERR pdev.ioremap = true) :
    serial_probe dev pdev fuel w
      = some (PTR_ERR pdev.ioremap,
          { hw := w.hw,
            log := w.log ++ [Event.pr_info, Event.devm_kzalloc,
              Event.devm_platform_ioremap_resource] }) := by
  simp [serial_probe, halloc, hmap, emit]

/-- Attach when the clock-frequency read fails. -/
theorem serial_probe_no_clock (dev : Device σ) (pdev : platform_device) (fuel : Nat)
    (w : World σ) (halloc : pdev.kzalloc ≠ 0) (hmap : IS_ERR pdev.ioremap = false)
    (hclk : pdev.clk_err ≠ 0) :
    serial_probe dev pdev fuel w
      = some (pdev.clk_err,
          { hw := w.hw,
            log := w.log ++ [Event.pr_info, Event.devm_kzalloc,
              Event.devm_platform_ioremap_resource, Event.pm_runtime_enable,
              Event.pm_runtime_get_sync, Event.of_property_read_u32, Event.dev_err,
              Event.pm_runtime_disable] }) := by
  simp [serial_probe, halloc, hmap, hclk, serial_configure_baud_rate_err, emit,
    init_ti_proc_specific_settings, destroy_ti_proc_specific_settings]

/-- Attach when allocation, mapping and the clock-frequency read succeed: what is
left is the transmission of the sentinel from the configured state. -/
theorem serial_probe_configured (dev : Device σ) (pdev : platform_device) (fuel : Nat)
    (w : World σ) (halloc : pdev.kzalloc ≠ 0) (hmap : IS_ERR pdev.ioremap = false)
    (hclk : pdev.clk_err = 0) :
    serial_probe dev pdev fuel w
      = (serial_write_char dev { regs := pdev.ioremap } 120 fuel
          (serial_configure_baud_rate dev pdev { regs := pdev.ioremap }
            (init_ti_proc_specific_settings
              (emit Event.devm_platform_ioremap_resource
                (emit Event.devm_kzalloc (emit Event.pr_info w))))).2).map
          (fun w' => ((0 : Int), w')) := by
  simp only [serial_probe, halloc, hmap, if_false, Bool.false_eq_true, ne_eq,
    serial_configure_baud_rate_fst dev pdev _ _ hclk, not_true_eq_false]
  cases serial_write_char dev { regs := pdev.ioremap } 120 fuel
    (serial_configure_baud_rate dev pdev { regs := pdev.ioremap }
      (init_ti_proc_specific_settings
        (emit Event.devm_platform_ioremap_resource
          (emit Event.devm_kzalloc (emit Event.pr_info w))))).2 <;> rfl

/-- A successful attach: when allocation, mapping and the clock-frequency read
succeed and the line-status register, polled from the configured hardware, has
THRE clear `N` times and then set, attach returns 0 and its log is `attach_log`. -/
theorem serial_probe_ok (dev : Device σ) (pdev : platform_device) (N fuel : Nat)
    (w : World σ) (halloc : pdev.kzalloc ≠ 0) (hmap : IS_ERR pdev.ioremap = false)
    (hclk : pdev.clk_err = 0)
    (hbusy : ∀ k, k < N →
      lsr_reads dev { regs := pdev.ioremap } k
        (serial_configure_baud_rate dev pdev { regs := pdev.ioremap } w).2.hw
        &&& UART_LSR_THRE = 0)
    (hready :
      lsr_reads dev { regs := pdev.ioremap } N
        (serial_configure_baud_rate dev pdev { regs := pdev.ioremap } w).2.hw
        &&& UART_LSR_THRE ≠ 0)
    (hfuel : N + 1 ≤ fuel) :
    ∃ w', serial_probe dev pdev fuel w = some (0, w')
      ∧ w'.log = w.log ++ attach_log pdev N
      ∧ w'.hw = dev.writel
          (lsr_state dev { regs := pdev.ioremap } (N + 1)
            (serial_configure_baud_rate dev pdev { regs := pdev.ioremap } w).2.hw)
          0x78 (reg_addr { regs := pdev.ioremap } UART_TX) := by
  have hhw := serial_configure_baud_rate_hw dev pdev { regs := pdev.ioremap } w
    (init_ti_proc_specific_settings
      (emit Event.devm_platform_ioremap_resource
        (emit Event.devm_kzalloc (emit Event.pr_info w)))) rfl
  rw [hhw] at hbusy hready ⊢
  obtain ⟨w1, hloop, hlog, hhw1⟩ :=
    serial_write_char_loop_ready dev { regs := pdev.ioremap } N fuel _ hbusy hready hfuel
  refine ⟨serial_write dev { regs := pdev.ioremap } (120 % 256) UART_TX w1, ?_, ?_, ?_⟩
  · rw [serial_probe_configured dev pdev fuel w halloc hmap hclk]
    simp [serial_write_char, hloop]
  · simp [serial_write, hlog, serial_configure_baud_rate_log dev pdev _ _ hclk,
      init_ti_proc_specific_settings, emit, attach_log, u32]
  · simp only [serial_write, hhw1]
    rfl

/-- When attach returns 0, allocation, mapping and the clock-frequency read have
succeeded and one of the polls of the configured hardware had THRE set. -/
theorem serial_probe_zero (dev : Device σ) (pdev : platform_device) (fuel : Nat)
    (w w' : World σ) (h : serial_probe dev pdev fuel w = some (0, w')) :
    pdev.kzalloc ≠ 0 ∧ IS_ERR pdev.ioremap = false ∧ pdev.clk_err = 0
      ∧ ∃ n, n < fuel ∧
        lsr_reads dev { regs := pdev.ioremap } n
          (serial_configure_baud_rate dev pdev { regs := pdev.ioremap } w).2.hw
          &&& UART_LSR_THRE ≠ 0 := by
  by_cases halloc : pdev.kzalloc = 0
  · rw [serial_probe_no_memory dev pdev fuel w halloc] at h
    simp at h
  by_cases hmap : IS_ERR pdev.ioremap = true
  · rw [serial_probe_no_window dev pdev fuel w halloc hmap] at h
    have hneg := PTR_ERR_neg _ hmap
    simp only [Option.some.injEq, Prod.mk.injEq] at h
    omega
  have hmap' : IS_ERR pdev.ioremap = false := by simpa using hmap
  by_cases hclk : pdev.clk_err = 0
  · refine ⟨halloc, hmap', hclk, ?_⟩
    rw [serial_probe_configured dev pdev fuel w halloc hmap' hclk] at h
    have hhw := serial_configure_baud_rate_hw dev pdev { regs := pdev.ioremap } w
      (init_ti_proc_specific_settings
        (emit Event.devm_platform_ioremap_resource
          (emit Event.devm_kzalloc (emit Event.pr_info w)))) rfl
    rw [hhw]
    unfold serial_write_char at h
    split at h
    · simp at h
    · next w1 hloop => exact serial_write_char_loop_some dev _ fuel _ w1 hloop
  · rw [serial_probe_no_clock dev pdev fuel w halloc hmap' hclk] at h
    simp only [Option.some.injEq, Prod.mk.injEq] at h
    exact absurd h.1 hclk

/-- The stuck UART never reports THRE. -/
theorem lsr_reads_stuck_uart (sd : serial_dev_data) (n : Nat) (s : Unit) :
    lsr_reads stuck_uart sd n s = 0 := by
  induction n with
  | zero => rfl
  | succ n ih => simpa [lsr_reads] using ih

/-- On the UART with a divisor latch a read changes nothing but the read count. -/
theorem lsr_state_banked_uart (base busy : Nat) (sd : serial_dev_data) (k : Nat)
    (s : Uart16550) :
    lsr_state (banked_uart base busy) sd k s = { s with reads := s.reads + k } := by
  induction k generalizing s with
  | zero => rfl
  | succ k ih =>
    have hr : ((banked_uart base busy).readl s (reg_addr sd UART_LSR)).2
        = { s with reads := s.reads + 1 } := rfl
    rw [lsr_state, hr, ih]
    simp [Nat.add_assoc, Nat.add_comm 1 k]

/-- On the UART with a divisor latch the read number `k + 1` returns 0 while fewer
than `busy` reads have been made and 0x60 afterwards. -/
theorem lsr_reads_banked_uart (base busy : Nat) (sd : serial_dev_data) (k : Nat)
    (s : Uart16550) :
    lsr_reads (banked_uart base busy) sd k s = if s.reads + k < busy then 0 else 0x60 := by
  induction k generalizing s with
  | zero =>
    have hr : ((banked_uart base busy).readl s (reg_addr sd UART_LSR)).1
        = if s.reads < busy then 0 else 0x60 := rfl
    rw [lsr_reads, hr]
    by_cases h : s.reads < busy <;> simp [h, u32]
  | succ k ih =>
    have hr : ((banked_uart base busy).readl s (reg_addr sd UART_LSR)).2
        = { s with reads := s.reads + 1 } := rfl
    rw [lsr_reads, hr, ih]
    simp [Nat.add_assoc, Nat.add_comm 1 k]

/-- On the UART with a divisor latch a successful configuration leaves the
line-control register at 0x03 and the two bytes of the divisor in the divisor
latch; nothing has been transmitted. -/
theorem serial_configure_baud_rate_banked_uart (busy : Nat) (pdev : platform_device)
    (w : World Uart16550) (hclk : pdev.clk_err = 0) :
    (serial_configure_baud_rate (banked_uart pdev.ioremap busy) pdev
        { regs := pdev.ioremap } w).2.hw
      = { w.hw with
          lcr := 0x03,
          dll := baud_divisor pdev.clk_val &&& 0xff,
          dlm := (baud_divisor pdev.clk_val >>> 8) &&& 0xff } := by
  simp [serial_configure_baud_rate, hclk, serial_write, banked_uart, emit, baud_divisor_u32,
    u32_of_lt (and_255_lt _)]
  simp [u32]
  decide

/-! ## The baud-rate programmer -/

/-- C1: for every unsigned 32-bit clock frequency the clock source supplies, the
divisor `serial_configure_baud_rate` computes is `clock_frequency / 16 / 115200`
(floor divisions), the only value it writes to the divisor-low register is
`divisor & 0xff` and the only value it writes to the divisor-high register is
`(divisor >> 8) & 0xff`; the divisor is 0 for 0 and 1, 1 for 1,843,200 and 26 for
48,000,000. -/
theorem serial_configure_baud_rate_divisor (dev : Device σ) (pdev : platform_device)
    (sd : serial_dev_data) (w : World σ)
    (hclk : pdev.clk_err = 0) (h32 : pdev.clk_val < 2 ^ 32) :
    baud_divisor pdev.clk_val = pdev.clk_val / 16 / 115200
    ∧ writes_to (reg_addr sd UART_DLL)
        (events_since w (serial_configure_baud_rate dev pdev sd w).2)
        = [(pdev.clk_val / 16 / 115200) &&& 0xff]
    ∧ writes_to (reg_addr sd UART_DLM)
        (events_since w (serial_configure_baud_rate dev pdev sd w).2)
        = [((pdev.clk_val / 16 / 115200) >>> 8) &&& 0xff]
    ∧ baud_divisor 0 = 0 ∧ baud_divisor 1 = 0
    ∧ baud_divisor 1843200 = 1 ∧ baud_divisor 48000000 = 26 := by
  have hd : baud_divisor pdev.clk_val = pdev.clk_val / 16 / 115200 := by
    unfold baud_divisor; rw [u32_of_lt h32]
  have hev := events_since_append w _ _ (serial_configure_baud_rate_log dev pdev sd w hclk)
  refine ⟨hd, ?_, ?_, by decide, by decide, by decide, by decide⟩
  · rw [hev, hd]
    simp [baud_rate_sequence, fifo_reset, writes_to]
  · rw [hev, hd]
    simp [baud_rate_sequence, fifo_reset, writes_to]

/-- The 48 MHz clock: divisor 26, low byte 26, high byte 0. -/
theorem serial_configure_baud_rate_divisor_witness :
    baud_divisor 48000000 = 48000000 / 16 / 115200
    ∧ writes_to (reg_addr sd_test UART_DLL)
        (events_since w_fake (serial_configure_baud_rate fake_window pdev_48mhz sd_test w_fake).2)
        = [26]
    ∧ writes_to (reg_addr sd_test UART_DLM)
        (events_since w_fake (serial_configure_baud_rate fake_window pdev_48mhz sd_test w_fake).2)
        = [0] := by
  have h := serial_configure_baud_rate_divisor fake_window pdev_48mhz sd_test w_fake
    (by decide) (by decide)
  exact ⟨h.1, h.2.1, h.2.2.1⟩

/-- C2: whenever the clock source supplies a value, the register accesses of
`serial_configure_baud_rate` start with these seven writes, in this order and with
nothing in between: mode-select = 0x07, line-control = 0x00, line-control = 0x80,
divisor-low = low byte of the divisor, divisor-high = high byte of the divisor,
line-control = 0x03, mode-select = 0x00 (the FIFO reset follows them).  The
registers accessed and their order are the same for any two clock frequencies. -/
theorem serial_configure_baud_rate_write_order (dev : Device σ)
    (pdev pdev' : platform_device) (sd : serial_dev_data) (w : World σ)
    (hclk : pdev.clk_err = 0) (hclk' : pdev'.clk_err = 0) :
    events_since w (serial_configure_baud_rate dev pdev sd w).2
      = [ Event.of_property_read_u32,
          Event.writel 0x07 (reg_addr sd UART_OMAP_MDR1),
          Event.writel 0x00 (reg_addr sd UART_LCR),
          Event.writel 0x80 (reg_addr sd UART_LCR),
          Event.writel (baud_divisor pdev.clk_val &&& 0xff) (reg_addr sd UART_DLL),
          Event.writel ((baud_divisor pdev.clk_val >>> 8) &&& 0xff) (reg_addr sd UART_DLM),
          Event.writel 0x03 (reg_addr sd UART_LCR),
          Event.writel 0x00 (reg_addr sd UART_OMAP_MDR1),
          Event.writel 0x06 (reg_addr sd UART_FCR) ]
    ∧ (register_accesses
        (events_since w (serial_configure_baud_rate dev pdev sd w).2)).take 7
      = [ Event.writel 0x07 (reg_addr sd UART_OMAP_MDR1),
          Event.writel 0x00 (reg_addr sd UART_LCR),
          Event.writel 0x80 (reg_addr sd UART_LCR),
          Event.writel (baud_divisor pdev.clk_val &&& 0xff) (reg_addr sd UART_DLL),
          Event.writel ((baud_divisor pdev.clk_val >>> 8) &&& 0xff) (reg_addr sd UART_DLM),
          Event.writel 0x03 (reg_addr sd UART_LCR),
          Event.writel 0x00 (reg_addr sd UART_OMAP_MDR1) ]
    ∧ targets (events_since w (serial_configure_baud_rate dev pdev' sd w).2)
      = targets (events_since w (serial_configure_baud_rate dev pdev sd w).2) := by
  rw [events_since_append w _ _ (serial_configure_baud_rate_log dev pdev sd w hclk),
    events_since_append w _ _ (serial_configure_baud_rate_log dev pdev' sd w hclk')]
  refine ⟨?_, ?_, ?_⟩
  · simp [baud_rate_sequence, fifo_reset]
  · simp [baud_rate_sequence, fifo_reset, register_accesses_cons, register_accesses_nil,
      Event.isRead, Event.isWrite]
  · simp [baud_rate_sequence, fifo_reset, targets]

/-- A clock frequency of 0 (divisor 0): the same seven writes, with both divisor
bytes 0, and the same registers in the same order as for 48 MHz. -/
theorem serial_configure_baud_rate_write_order_witness :
    (register_accesses
        (events_since w_fake
          (serial_configure_baud_rate fake_window pdev_zero_clock sd_test w_fake).2)).take 7
      = [ Event.writel 0x07 (reg_addr sd_test UART_OMAP_MDR1),
          Event.writel 0x00 (reg_addr sd_test UART_LCR),
          Event.writel 0x80 (reg_addr sd_test UART_LCR),
          Event.writel (baud_divisor pdev_zero_clock.clk_val &&& 0xff)
            (reg_addr sd_test UART_DLL),
          Event.writel ((baud_divisor pdev_zero_clock.clk_val >>> 8) &&& 0xff)
            (reg_addr sd_test UART_DLM),
          Event.writel 0x03 (reg_addr sd_test UART_LCR),
          Event.writel 0x00 (reg_addr sd_test UART_OMAP_MDR1) ]
    ∧ targets (events_since w_fake
        (serial_configure_baud_rate fake_window pdev_48mhz sd_test w_fake).2)
      = targets (events_since w_fake
        (serial_configure_baud_rate fake_window pdev_zero_clock sd_test w_fake).2) :=
  (serial_configure_baud_rate_write_order fake_window pdev_zero_clock pdev_48mhz sd_test
    w_fake (by decide) (by decide)).2

/-! ## The transmit protocol -/

/-- C3: if the line-status register returns a value with THRE clear on its first
`N` reads and one with THRE set on read `N + 1`, then `serial_write_char` returns
(fuel for `N + 1` evaluations of the loop condition is enough); its register
accesses are exactly `N + 1` reads of the line-status register followed by one
write, of the byte `c` to the transmit-data register, so no write comes before
read `N + 1` and there is no other read. -/
theorem serial_write_char_polls (dev : Device σ) (sd : serial_dev_data)
    (c N fuel : Nat) (w : World σ) (hc : c < 256)
    (hbusy : ∀ k, k < N → lsr_reads dev sd k w.hw &&& UART_LSR_THRE = 0)
    (hready : lsr_reads dev sd N w.hw &&& UART_LSR_THRE ≠ 0)
    (hfuel : N + 1 ≤ fuel) :
    ∃ w', serial_write_char dev sd c fuel w = some w'
      ∧ events_since w w'
        = polls sd N
          ++ [Event.readl (reg_addr sd UART_LSR), Event.writel c (reg_addr sd UART_TX)]
      ∧ register_accesses (events_since w w')
        = List.replicate (N + 1) (Event.readl (reg_addr sd UART_LSR))
          ++ [Event.writel c (reg_addr sd UART_TX)] := by
  obtain ⟨w1, hloop, hlog, _⟩ :=
    serial_write_char_loop_ready dev sd N fuel w hbusy hready hfuel
  have hc32 : u32 (c % 256) = c := by
    rw [Nat.mod_eq_of_lt hc]; exact u32_of_lt (lt_trans hc (by norm_num))
  have hev : events_since w (serial_write dev sd (c % 256) UART_TX w1)
      = polls sd N
        ++ [Event.readl (reg_addr sd UART_LSR), Event.writel c (reg_addr sd UART_TX)] := by
    apply events_since_append
    simp [serial_write, hlog, hc32]
  refine ⟨serial_write dev sd (c % 256) UART_TX w1, ?_, hev, ?_⟩
  · simp [serial_write_char, hloop]
  · rw [hev]
    simp [register_accesses_append, register_accesses_cons, register_accesses_nil,
      register_accesses_polls, Event.isRead, Event.isWrite, List.replicate_succ']

/-- A scripted UART that is busy for two reads: three reads of the line-status
register, then the one write of the byte. -/
theorem serial_write_char_polls_witness :
    ∃ w', serial_write_char (scripted_uart 2) sd_test 0x78 3 w_scripted = some w'
      ∧ events_since w_scripted w'
        = polls sd_test 2
          ++ [Event.readl (reg_addr sd_test UART_LSR),
              Event.writel 0x78 (reg_addr sd_test UART_TX)]
      ∧ register_accesses (events_since w_scripted w')
        = List.replicate (2 + 1) (Event.readl (reg_addr sd_test UART_LSR))
          ++ [Event.writel 0x78 (reg_addr sd_test UART_TX)] :=
  serial_write_char_polls (scripted_uart 2) sd_test 0x78 2 3 w_scripted (by decide)
    (by decide) (by decide) (by decide)

/-! ## Attach and detach -/

/-- C4: when allocation and mapping succeed and the clock-frequency source returns
a non-zero error `e`, `serial_probe` returns exactly `e`; its log is the entry
message, the allocation, the mapping, the power-domain enable, the failed
clock-frequency read, the error message and one power-domain disable, in this
order: one disable after the one enable, no register read, no register write, no
call of `serial_write_char` (no fuel is needed), and the hardware is untouched. -/
theorem serial_probe_clock_failure (dev : Device σ) (pdev : platform_device) (fuel : Nat)
    (w : World σ) (halloc : pdev.kzalloc ≠ 0) (hmap : IS_ERR pdev.ioremap = false)
    (hclk : pdev.clk_err ≠ 0) :
    ∃ w', serial_probe dev pdev fuel w = some (pdev.clk_err, w')
      ∧ events_since w w'
        = [ Event.pr_info, Event.devm_kzalloc, Event.devm_platform_ioremap_resource,
            Event.pm_runtime_enable, Event.pm_runtime_get_sync,
            Event.of_property_read_u32, Event.dev_err, Event.pm_runtime_disable ]
      ∧ (events_since w w').count Event.pm_runtime_disable = 1
      ∧ (events_since w w').count Event.pm_runtime_enable = 1
      ∧ register_accesses (events_since w w') = []
      ∧ w'.hw = w.hw := by
  refine ⟨_, serial_probe_no_clock dev pdev fuel w halloc hmap hclk, ?_⟩
  rw [events_since_append w _ _ rfl]
  exact ⟨rfl, by decide, by decide, by decide, rfl⟩

/-- A missing clock-frequency property (`-EINVAL`), with no fuel at all. -/
theorem serial_probe_clock_failure_witness :
    ∃ w', serial_probe (scripted_uart 0) pdev_no_clock 0 w_scripted = some (-22, w')
      ∧ events_since w_scripted w'
        = [ Event.pr_info, Event.devm_kzalloc, Event.devm_platform_ioremap_resource,
            Event.pm_runtime_enable, Event.pm_runtime_get_sync,
            Event.of_property_read_u32, Event.dev_err, Event.pm_runtime_disable ]
      ∧ (events_since w_scripted w').count Event.pm_runtime_disable = 1
      ∧ (events_since w_scripted w').count Event.pm_runtime_enable = 1
      ∧ register_accesses (events_since w_scripted w') = []
      ∧ w'.hw = w_scripted.hw :=
  serial_probe_clock_failure (scripted_uart 0) pdev_no_clock 0 w_scripted (by decide)
    (by decide) (by decide)

/-- C5: for every successful attach (allocation and mapping succeed, the clock
source supplies a value, and the line-status register, polled from the configured
hardware, has THRE clear `N` times and then set), `serial_probe` returns 0 and its
log is: power-domain enable, the baud-rate writes, the FIFO-clear write, the
polls of the line-status register and, as the last event, one write of the
sentinel 'x' (0x78) to the transmit-data register.  There is no power-domain
disable, and after the FIFO-clear write the only register write is the
sentinel. -/
theorem serial_probe_success (dev : Device σ) (pdev : platform_device) (N fuel : Nat)
    (w : World σ) (halloc : pdev.kzalloc ≠ 0) (hmap : IS_ERR pdev.ioremap = false)
    (hclk : pdev.clk_err = 0)
    (hbusy : ∀ k, k < N →
      lsr_reads dev { regs := pdev.ioremap } k
        (serial_configure_baud_rate dev pdev { regs := pdev.ioremap } w).2.hw
        &&& UART_LSR_THRE = 0)
    (hready :
      lsr_reads dev { regs := pdev.ioremap } N
        (serial_configure_baud_rate dev pdev { regs := pdev.ioremap } w).2.hw
        &&& UART_LSR_THRE ≠ 0)
    (hfuel : N + 1 ≤ fuel) :
    ∃ w', serial_probe dev pdev fuel w = some (0, w')
      ∧ events_since w w'
        = [ Event.pr_info, Event.devm_kzalloc, Event.devm_platform_ioremap_resource,
            Event.pm_runtime_enable, Event.pm_runtime_get_sync,
            Event.of_property_read_u32 ]
          ++ baud_rate_sequence { regs := pdev.ioremap } (baud_divisor pdev.clk_val)
          ++ [ Event.writel 0x06 (reg_addr { regs := pdev.ioremap } UART_FCR) ]
          ++ polls { regs := pdev.ioremap } N
          ++ [ Event.readl (reg_addr { regs := pdev.ioremap } UART_LSR),
               Event.writel 0x78 (reg_addr { regs := pdev.ioremap } UART_TX) ]
      ∧ register_accesses (events_since w w')
        = baud_rate_sequence { regs := pdev.ioremap } (baud_divisor pdev.clk_val)
          ++ [ Event.writel 0x06 (reg_addr { regs := pdev.ioremap } UART_FCR) ]
          ++ List.replicate (N + 1) (Event.readl (reg_addr { regs := pdev.ioremap } UART_LSR))
          ++ [ Event.writel 0x78 (reg_addr { regs := pdev.ioremap } UART_TX) ]
      ∧ (events_since w w').getLast?
        = some (Event.writel 0x78 (reg_addr { regs := pdev.ioremap } UART_TX))
      ∧ (events_since w w').count Event.pm_runtime_disable = 0 := by
  obtain ⟨w', hret, hlog, _⟩ :=
    serial_probe_ok dev pdev N fuel w halloc hmap hclk hbusy hready hfuel
  have hev := events_since_append w w' _ hlog
  have hev' : events_since w w'
      = [ Event.pr_info, Event.devm_kzalloc, Event.devm_platform_ioremap_resource,
          Event.pm_runtime_enable, Event.pm_runtime_get_sync,
          Event.of_property_read_u32 ]
        ++ baud_rate_sequence { regs := pdev.ioremap } (baud_divisor pdev.clk_val)
        ++ [ Event.writel 0x06 (reg_addr { regs := pdev.ioremap } UART_FCR) ]
        ++ polls { regs := pdev.ioremap } N
        ++ [ Event.readl (reg_addr { regs := pdev.ioremap } UART_LSR),
             Event.writel 0x78 (reg_addr { regs := pdev.ioremap } UART_TX) ] := by
    rw [hev]; simp [attach_log, fifo_reset]
  refine ⟨w', hret, hev', ?_, ?_, ?_⟩
  · rw [hev]
    simp [attach_log, fifo_reset, baud_rate_sequence, register_accesses_append,
      register_accesses_cons, register_accesses_nil, register_accesses_polls,
      Event.isRead, Event.isWrite, List.replicate_succ']
  · rw [hev', List.getLast?_append]; rfl
  · rw [hev]
    simp [attach_log, fifo_reset, baud_rate_sequence, List.count_cons, count_polls]

/-- A 48 MHz clock and a scripted UART that is busy for two reads. -/
theorem serial_probe_success_witness :
    ∃ w', serial_probe (scripted_uart 2) pdev_48mhz 3 w_scripted = some (0, w')
      ∧ events_since w_scripted w'
        = [ Event.pr_info, Event.devm_kzalloc, Event.devm_platform_ioremap_resource,
            Event.pm_runtime_enable, Event.pm_runtime_get_sync,
            Event.of_property_read_u32 ]
          ++ baud_rate_sequence { regs := pdev_48mhz.ioremap }
            (baud_divisor pdev_48mhz.clk_val)
          ++ [ Event.writel 0x06 (reg_addr { regs := pdev_48mhz.ioremap } UART_FCR) ]
          ++ polls { regs := pdev_48mhz.ioremap } 2
          ++ [ Event.readl (reg_addr { regs := pdev_48mhz.ioremap } UART_LSR),
               Event.writel 0x78 (reg_addr { regs := pdev_48mhz.ioremap } UART_TX) ]
      ∧ (events_since w_scripted w').count Event.pm_runtime_disable = 0 := by
  obtain ⟨w', h1, h2, _, _, h6⟩ :=
    serial_probe_success (scripted_uart 2) pdev_48mhz 2 3 w_scripted (by decide)
      (by decide) (by decide) (by decide) (by decide) (by decide)
  exact ⟨w', h1, h2, h6⟩

/-- C6: on a fake register window (a read returns the value last written to the
address), for every unsigned 32-bit clock frequency, after
`serial_configure_baud_rate` has succeeded, `serial_read` of the divisor-low and
divisor-high registers returns the two bytes that were written, and
low + 256 * high is the whole divisor `clock_frequency / 16 / 115200`, which is at
most 2330 and so fits in 16 bits. -/
theorem fake_window_round_trip (pdev : platform_device) (sd : serial_dev_data)
    (w : World (Nat → Nat)) (hclk : pdev.clk_err = 0) (h32 : pdev.clk_val < 2 ^ 32) :
    (serial_configure_baud_rate fake_window pdev sd w).1 = 0
    ∧ (serial_read fake_window sd UART_DLL
        (serial_configure_baud_rate fake_window pdev sd w).2).1
      = (pdev.clk_val / 16 / 115200) &&& 0xff
    ∧ (serial_read fake_window sd UART_DLM
        (serial_configure_baud_rate fake_window pdev sd w).2).1
      = ((pdev.clk_val / 16 / 115200) >>> 8) &&& 0xff
    ∧ writes_to (reg_addr sd UART_DLL)
        (events_since w (serial_configure_baud_rate fake_window pdev sd w).2)
      = [(serial_read fake_window sd UART_DLL
          (serial_configure_baud_rate fake_window pdev sd w).2).1]
    ∧ writes_to (reg_addr sd UART_DLM)
        (events_since w (serial_configure_baud_rate fake_window pdev sd w).2)
      = [(serial_read fake_window sd UART_DLM
          (serial_configure_baud_rate fake_window pdev sd w).2).1]
    ∧ (serial_read fake_window sd UART_DLL
        (serial_configure_baud_rate fake_window pdev sd w).2).1
      + 256 * (serial_read fake_window sd UART_DLM
        (serial_configure_baud_rate fake_window pdev sd w).2).1
      = pdev.clk_val / 16 / 115200
    ∧ pdev.clk_val / 16 / 115200 ≤ 2330
    ∧ pdev.clk_val / 16 / 115200 < 2 ^ 16 := by
  have hd : baud_divisor (u32 pdev.clk_val) = pdev.clk_val / 16 / 115200 := by
    unfold baud_divisor; rw [u32_idem, u32_of_lt h32]
  have hd' : baud_divisor pdev.clk_val = pdev.clk_val / 16 / 115200 := by
    unfold baud_divisor; rw [u32_of_lt h32]
  have hlo : (serial_read fake_window sd UART_DLL
        (serial_configure_baud_rate fake_window pdev sd w).2).1
      = (pdev.clk_val / 16 / 115200) &&& 0xff := by
    simp [serial_configure_baud_rate, hclk, serial_write, serial_read, fake_window, emit,
      hd, u32_idem, u32_of_lt (and_255_lt _)]
  have hhi : (serial_read fake_window sd UART_DLM
        (serial_configure_baud_rate fake_window pdev sd w).2).1
      = ((pdev.clk_val / 16 / 115200) >>> 8) &&& 0xff := by
    simp [serial_configure_baud_rate, hclk, serial_write, serial_read, fake_window, emit,
      hd, u32_idem, u32_of_lt (and_255_lt _)]
  have hev := events_since_append w _ _ (serial_configure_baud_rate_log fake_window pdev sd w hclk)
  have hle : pdev.clk_val / 16 / 115200 ≤ 2330 := by omega
  have hsum : ((pdev.clk_val / 16 / 115200) &&& 0xff)
      + 256 * (((pdev.clk_val / 16 / 115200) >>> 8) &&& 0xff)
      = pdev.clk_val / 16 / 115200 := by
    have e1 := Nat.and_pow_two_sub_one_eq_mod (pdev.clk_val / 16 / 115200) 8
    have e2 := Nat.and_pow_two_sub_one_eq_mod ((pdev.clk_val / 16 / 115200) >>> 8) 8
    have e3 := Nat.shiftRight_eq_div_pow (pdev.clk_val / 16 / 115200) 8
    norm_num at e1 e2 e3
    rw [e1, e2, e3]
    omega
  refine ⟨serial_configure_baud_rate_fst fake_window pdev sd w hclk, hlo, hhi, ?_, ?_, ?_,
    hle, by omega⟩
  · rw [hlo, hev, hd']
    simp [baud_rate_sequence, fifo_reset, writes_to]
  · rw [hhi, hev, hd']
    simp [baud_rate_sequence, fifo_reset, writes_to]
  · rw [hlo, hhi]; exact hsum

/-- The largest clock frequency, 2^32 - 1: divisor 2330 = 0x091a, read back as the
bytes 0x1a and 0x09. -/
theorem fake_window_round_trip_witness :
    (serial_read fake_window sd_test UART_DLL
        (serial_configure_baud_rate fake_window
          { kzalloc := 1, ioremap := 0xfa022000, clk_err := 0, clk_val := 2 ^ 32 - 1 }
          sd_test w_fake).2).1 = 0x1a
    ∧ (serial_read fake_window sd_test UART_DLM
        (serial_configure_baud_rate fake_window
          { kzalloc := 1, ioremap := 0xfa022000, clk_err := 0, clk_val := 2 ^ 32 - 1 }
          sd_test w_fake).2).1 = 0x09
    ∧ 0x1a + 256 * 0x09 = (2 ^ 32 - 1) / 16 / 115200 := by
  have h := fake_window_round_trip
    { kzalloc := 1, ioremap := 0xfa022000, clk_err := 0, clk_val := 2 ^ 32 - 1 }
    sd_test w_fake (by decide) (by decide)
  exact ⟨h.2.1, h.2.2.1, by decide⟩

/-- C7: the FIFO reset is one write.  In every successful run of
`serial_configure_baud_rate`, whatever the clock frequency, the only value written
to the FIFO-control register is 0x06 = `UART_FCR_CLEAR_RCVR | UART_FCR_CLEAR_XMIT`,
both clear bits together, and that write comes immediately after the seventh
baud-rate write; in every successful `serial_probe` too, the only value written
to the FIFO-control register is 0x06, so no write carries only one clear bit. -/
theorem fifo_reset_single_write (dev : Device σ) (pdev : platform_device)
    (sd : serial_dev_data) (N fuel : Nat) (w : World σ)
    (hclk : pdev.clk_err = 0) :
    writes_to (reg_addr sd UART_FCR)
        (events_since w (serial_configure_baud_rate dev pdev sd w).2)
      = [UART_FCR_CLEAR_RCVR ||| UART_FCR_CLEAR_XMIT]
    ∧ UART_FCR_CLEAR_RCVR ||| UART_FCR_CLEAR_XMIT = 0x06
    ∧ 0x06 &&& UART_FCR_CLEAR_RCVR ≠ 0 ∧ 0x06 &&& UART_FCR_CLEAR_XMIT ≠ 0
    ∧ register_accesses (events_since w (serial_configure_baud_rate dev pdev sd w).2)
      = baud_rate_sequence sd (baud_divisor pdev.clk_val)
        ++ [Event.writel 0x06 (reg_addr sd UART_FCR)]
    ∧ (pdev.kzalloc ≠ 0 → IS_ERR pdev.ioremap = false →
        (∀ k, k < N →
          lsr_reads dev { regs := pdev.ioremap } k
            (serial_configure_baud_rate dev pdev { regs := pdev.ioremap } w).2.hw
            &&& UART_LSR_THRE = 0) →
        lsr_reads dev { regs := pdev.ioremap } N
          (serial_configure_baud_rate dev pdev { regs := pdev.ioremap } w).2.hw
          &&& UART_LSR_THRE ≠ 0 →
        N + 1 ≤ fuel →
        ∃ w', serial_probe dev pdev fuel w = some (0, w')
          ∧ writes_to (reg_addr { regs := pdev.ioremap } UART_FCR) (events_since w w')
            = [0x06]) := by
  have hev := events_since_append w _ _ (serial_configure_baud_rate_log dev pdev sd w hclk)
  refine ⟨?_, by decide, by decide, by decide, ?_, ?_⟩
  · rw [hev]
    simp [baud_rate_sequence, fifo_reset, writes_to]
    decide
  · rw [hev]
    simp [baud_rate_sequence, fifo_reset, register_accesses_cons, register_accesses_nil,
      Event.isRead, Event.isWrite]
  · intro halloc hmap hbusy hready hfuel
    obtain ⟨w', hret, hlog, _⟩ :=
      serial_probe_ok dev pdev N fuel w halloc hmap hclk hbusy hready hfuel
    refine ⟨w', hret, ?_⟩
    rw [events_since_append w w' _ hlog]
    simp [attach_log, baud_rate_sequence, fifo_reset, writes_to, writes_to_append,
      writes_to_polls]

/-- A 48 MHz clock and a scripted UART that is busy for two reads: one write of
0x06 to the FIFO-control register in the configuration and in the whole attach. -/
theorem fifo_reset_single_write_witness :
    writes_to (reg_addr sd_test UART_FCR)
        (events_since w_scripted
          (serial_configure_baud_rate (scripted_uart 2) pdev_48mhz sd_test w_scripted).2)
      = [0x06]
    ∧ ∃ w', serial_probe (scripted_uart 2) pdev_48mhz 3 w_scripted = some (0, w')
        ∧ writes_to (reg_addr { regs := pdev_48mhz.ioremap } UART_FCR)
            (events_since w_scripted w')
          = [0x06] := by
  have h := fifo_reset_single_write (scripted_uart 2) pdev_48mhz sd_test 2 3 w_scripted
    (by decide)
  exact ⟨h.1, h.2.2.2.2.2 (by decide) (by decide) (by decide) (by decide) (by decide)⟩

/-- C8: detach (`serial_remove`), from every state, logs its entry message and one
power-domain disable, reads and writes no register, leaves the hardware as it
was, and returns 0; so a successful attach followed by one detach has made
exactly one power-domain enable and exactly one power-domain disable. -/
theorem serial_remove_effect (dev : Device σ) (pdev : platform_device) (N fuel : Nat)
    (w w0 : World σ) :
    ((serial_remove w0).1 = 0
      ∧ events_since w0 (serial_remove w0).2 = [Event.pr_info, Event.pm_runtime_disable]
      ∧ (events_since w0 (serial_remove w0).2).count Event.pm_runtime_disable = 1
      ∧ register_accesses (events_since w0 (serial_remove w0).2) = []
      ∧ (serial_remove w0).2.hw = w0.hw)
    ∧ (pdev.kzalloc ≠ 0 → IS_ERR pdev.ioremap = false → pdev.clk_err = 0 →
        (∀ k, k < N →
          lsr_reads dev { regs := pdev.ioremap } k
            (serial_configure_baud_rate dev pdev { regs := pdev.ioremap } w).2.hw
            &&& UART_LSR_THRE = 0) →
        lsr_reads dev { regs := pdev.ioremap } N
          (serial_configure_baud_rate dev pdev { regs := pdev.ioremap } w).2.hw
          &&& UART_LSR_THRE ≠ 0 →
        N + 1 ≤ fuel →
        ∃ w', serial_probe dev pdev fuel w = some (0, w')
          ∧ (serial_remove w').1 = 0
          ∧ (events_since w (serial_remove w').2).count Event.pm_runtime_enable = 1
          ∧ (events_since w (serial_remove w').2).count Event.pm_runtime_disable = 1) := by
  have hrem : ∀ v : World σ,
      (serial_remove v).2.log = v.log ++ [Event.pr_info, Event.pm_runtime_disable] := by
    intro v; simp [serial_remove, destroy_ti_proc_specific_settings, emit]
  refine ⟨⟨rfl, ?_, ?_, ?_, rfl⟩, ?_⟩
  · exact events_since_append w0 _ _ (hrem w0)
  · rw [events_since_append w0 _ _ (hrem w0)]; decide
  · rw [events_since_append w0 _ _ (hrem w0)]; decide
  · intro halloc hmap hclk hbusy hready hfuel
    obtain ⟨w', hret, hlog, _⟩ :=
      serial_probe_ok dev pdev N fuel w halloc hmap hclk hbusy hready hfuel
    have hev : events_since w (serial_remove w').2
        = attach_log pdev N ++ [Event.pr_info, Event.pm_runtime_disable] := by
      apply events_since_append
      rw [hrem w', hlog, List.append_assoc]
    refine ⟨w', hret, rfl, ?_, ?_⟩
    · rw [hev]
      simp [attach_log, fifo_reset, baud_rate_sequence, List.count_cons, count_polls]
    · rw [hev]
      simp [attach_log, fifo_reset, baud_rate_sequence, List.count_cons, count_polls]

/-- Detach after a successful attach at 48 MHz on a scripted UART that is busy for
two reads: one enable, one disable. -/
theorem serial_remove_effect_witness :
    ∃ w', serial_probe (scripted_uart 2) pdev_48mhz 3 w_scripted = some (0, w')
      ∧ (serial_remove w').1 = 0
      ∧ (events_since w_scripted (serial_remove w').2).count Event.pm_runtime_enable = 1
      ∧ (events_since w_scripted (serial_remove w').2).count Event.pm_runtime_disable = 1 :=
  (serial_remove_effect (scripted_uart 2) pdev_48mhz 2 3 w_scripted w_scripted).2
    (by decide) (by decide) (by decide) (by decide) (by decide) (by decide)

/-- C9, as the code has it: when the mapping of the register window fails,
`serial_probe` returns the error of the error pointer (a negative number) at
once: its log is the entry message, the allocation and the mapping, with no
power-domain call, no clock-frequency read and no register access.  When the
allocation fails it returns `-ENOMEM` after the entry message and the allocation
alone.  `serial_probe` returns 0 if and only if allocation, mapping and the
clock-frequency read all succeeded and the line-status register, polled from the
configured hardware, at some read has THRE set; and whenever `serial_probe`
returns, the value is 0 if and only if the three succeeded. -/
theorem serial_probe_error_propagation (dev : Device σ) (pdev : platform_device)
    (w : World σ) :
    (pdev.kzalloc ≠ 0 → IS_ERR pdev.ioremap = true →
      ∀ fuel, ∃ w', serial_probe dev pdev fuel w = some (PTR_ERR pdev.ioremap, w')
        ∧ events_since w w'
          = [Event.pr_info, Event.devm_kzalloc, Event.devm_platform_ioremap_resource]
        ∧ w'.hw = w.hw
        ∧ PTR_ERR pdev.ioremap < 0)
    ∧ (pdev.kzalloc = 0 →
      ∀ fuel, ∃ w', serial_probe dev pdev fuel w = some (-(ENOMEM : Int), w')
        ∧ events_since w w' = [Event.pr_info, Event.devm_kzalloc]
        ∧ w'.hw = w.hw)
    ∧ ((∃ fuel w', serial_probe dev pdev fuel w = some (0, w'))
      ↔ (pdev.kzalloc ≠ 0 ∧ IS_ERR pdev.ioremap = false ∧ pdev.clk_err = 0
        ∧ ∃ n, lsr_reads dev { regs := pdev.ioremap } n
            (serial_configure_baud_rate dev pdev { regs := pdev.ioremap } w).2.hw
            &&& UART_LSR_THRE ≠ 0))
    ∧ (∀ fuel r, serial_probe dev pdev fuel w = some r →
      (r.1 = 0 ↔ (pdev.kzalloc ≠ 0 ∧ IS_ERR pdev.ioremap = false ∧ pdev.clk_err = 0))) := by
  refine ⟨?_, ?_, ?_, ?_⟩
  · intro halloc hmap fuel
    refine ⟨_, serial_probe_no_window dev pdev fuel w halloc hmap, ?_, rfl,
      PTR_ERR_neg _ hmap⟩
    exact events_since_append w _ _ rfl
  · intro halloc fuel
    refine ⟨_, serial_probe_no_memory dev pdev fuel w halloc, ?_, rfl⟩
    exact events_since_append w _ _ rfl
  · constructor
    · rintro ⟨fuel, w', h⟩
      obtain ⟨h1, h2, h3, n, _, hn⟩ := serial_probe_zero dev pdev fuel w w' h
      exact ⟨h1, h2, h3, n, hn⟩
    · rintro ⟨halloc, hmap, hclk, hex⟩
      classical
      have hready := Nat.find_spec hex
      have hbusy : ∀ k, k < Nat.find hex →
          lsr_reads dev { regs := pdev.ioremap } k
            (serial_configure_baud_rate dev pdev { regs := pdev.ioremap } w).2.hw
            &&& UART_LSR_THRE = 0 := by
        intro k hk
        exact not_not.mp (Nat.find_min hex hk)
      obtain ⟨w', hret, _, _⟩ := serial_probe_ok dev pdev (Nat.find hex) (Nat.find hex + 1) w
        halloc hmap hclk hbusy hready (le_refl _)
      exact ⟨_, w', hret⟩
  · intro fuel r h
    constructor
    · intro hr
      have h' : serial_probe dev pdev fuel w = some (0, r.2) := by
        rw [h, ← hr]
      obtain ⟨h1, h2, h3, _⟩ := serial_probe_zero dev pdev fuel w r.2 h'
      exact ⟨h1, h2, h3⟩
    · rintro ⟨halloc, hmap, hclk⟩
      rw [serial_probe_configured dev pdev fuel w halloc hmap hclk] at h
      simp only [Option.map_eq_some'] at h
      obtain ⟨w', _, rfl⟩ := h
      rfl

/-- On the test doubles: a mapping failure returns `-EBUSY`, an allocation failure
`-ENOMEM`, both without fuel, and the 48 MHz device on a scripted UART that is
busy for two reads returns 0. -/
theorem serial_probe_error_propagation_witness :
    (∃ w', serial_probe (scripted_uart 2) pdev_no_window 0 w_scripted = some (-16, w')
      ∧ events_since w_scripted w'
        = [Event.pr_info, Event.devm_kzalloc, Event.devm_platform_ioremap_resource])
    ∧ (∃ w', serial_probe (scripted_uart 2) pdev_no_memory 0 w_scripted = some (-12, w')
      ∧ events_since w_scripted w' = [Event.pr_info, Event.devm_kzalloc])
    ∧ ∃ fuel w', serial_probe (scripted_uart 2) pdev_48mhz fuel w_scripted = some (0, w') := by
  refine ⟨?_, ?_, ?_⟩
  · obtain ⟨w', h1, h2, _⟩ :=
      (serial_probe_error_propagation (scripted_uart 2) pdev_no_window w_scripted).1
        (by decide) (by decide) 0
    exact ⟨w', h1, h2⟩
  · obtain ⟨w', h1, h2, _⟩ :=
      (serial_probe_error_propagation (scripted_uart 2) pdev_no_memory w_scripted).2.1
        (by decide) 0
    exact ⟨w', h1, h2⟩
  · exact (serial_probe_error_propagation (scripted_uart 2) pdev_48mhz w_scripted).2.2.1.mpr
      ⟨by decide, by decide, by decide, 2, by decide⟩

/-- C9 as stated fails: with the 48 MHz device on a UART that never reports THRE,
allocation, mapping and the clock-frequency read all succeed, yet for no amount
of fuel does `serial_probe` return 0 (it never returns at all). -/
theorem serial_probe_stuck_uart_never_returns :
    ¬ ((∃ fuel w', serial_probe stuck_uart pdev_48mhz fuel w_stuck = some (0, w'))
      ↔ (pdev_48mhz.kzalloc ≠ 0 ∧ IS_ERR pdev_48mhz.ioremap = false
        ∧ pdev_48mhz.clk_err = 0)) := by
  intro hiff
  obtain ⟨fuel, w', h⟩ := hiff.mpr ⟨by decide, by decide, by decide⟩
  obtain ⟨_, _, _, n, _, hn⟩ := serial_probe_zero stuck_uart pdev_48mhz fuel w_stuck w' h
  rw [lsr_reads_stuck_uart] at hn
  exact hn rfl

/-- C10: the divisor-latch bracket.  In the register writes of every successful
`serial_probe`, each taken with the DLAB bit of the most recent value written to
the line-control register: the bit is set by the line-control write of 0x80, is
set at the two divisor writes (divisor-low, divisor-high) and at no other write
to a register other than line-control, and is clear from the line-control write
of 0x03 on (0x03 & 0x80 = 0): at the mode-select write, the FIFO reset and the
last write, of the sentinel to index 0, which therefore goes to the
transmit-data register and not to the divisor-low latch.  Accordingly, on a UART
with a divisor latch (`banked_uart`) a successful attach ends with the two bytes
of the divisor in the latch and the sentinel as the one byte transmitted. -/
theorem serial_probe_dlab_bracket (dev : Device σ) (pdev : platform_device)
    (N fuel busy : Nat) (w : World σ) (u : World Uart16550) (halloc : pdev.kzalloc ≠ 0)
    (hmap : IS_ERR pdev.ioremap = false) (hclk : pdev.clk_err = 0)
    (hbusy : ∀ k, k < N →
      lsr_reads dev { regs := pdev.ioremap } k
        (serial_configure_baud_rate dev pdev { regs := pdev.ioremap } w).2.hw
        &&& UART_LSR_THRE = 0)
    (hready :
      lsr_reads dev { regs := pdev.ioremap } N
        (serial_configure_baud_rate dev pdev { regs := pdev.ioremap } w).2.hw
        &&& UART_LSR_THRE ≠ 0)
    (hfuel : N + 1 ≤ fuel) :
    (∃ w', serial_probe dev pdev fuel w = some (0, w')
      ∧ dlab_trace (reg_addr { regs := pdev.ioremap } UART_LCR) none (events_since w w')
        = [ (reg_addr { regs := pdev.ioremap } UART_OMAP_MDR1, 0x07, false),
            (reg_addr { regs := pdev.ioremap } UART_LCR, 0x00, false),
            (reg_addr { regs := pdev.ioremap } UART_LCR, 0x80, true),
            (reg_addr { regs := pdev.ioremap } UART_DLL,
              baud_divisor pdev.clk_val &&& 0xff, true),
            (reg_addr { regs := pdev.ioremap } UART_DLM,
              (baud_divisor pdev.clk_val >>> 8) &&& 0xff, true),
            (reg_addr { regs := pdev.ioremap } UART_LCR, 0x03, false),
            (reg_addr { regs := pdev.ioremap } UART_OMAP_MDR1, 0x00, false),
            (reg_addr { regs := pdev.ioremap } UART_FCR, 0x06, false),
            (reg_addr { regs := pdev.ioremap } UART_TX, 0x78, false) ]
      ∧ (dlab_trace (reg_addr { regs := pdev.ioremap } UART_LCR) none
            (events_since w w')).filter
          (fun t => t.2.2 && t.1 != reg_addr { regs := pdev.ioremap } UART_LCR)
        = [ (reg_addr { regs := pdev.ioremap } UART_DLL,
              baud_divisor pdev.clk_val &&& 0xff, true),
            (reg_addr { regs := pdev.ioremap } UART_DLM,
              (baud_divisor pdev.clk_val >>> 8) &&& 0xff, true) ]
      ∧ ((dlab_trace (reg_addr { regs := pdev.ioremap } UART_LCR) none
            (events_since w w')).drop 5).map (fun t => t.2.2)
        = [false, false, false, false]
      ∧ (dlab_trace (reg_addr { regs := pdev.ioremap } UART_LCR) none
            (events_since w w')).getLast?
        = some (reg_addr { regs := pdev.ioremap } UART_TX, 0x78, false)
      ∧ UART_LCR_WLEN8 &&& UART_LCR_DLAB = 0)
    ∧ ∃ u', serial_probe (banked_uart pdev.ioremap busy) pdev (busy - u.hw.reads + 1) u
          = some (0, u')
        ∧ u'.hw.lcr = 0x03
        ∧ u'.hw.dll = baud_divisor pdev.clk_val &&& 0xff
        ∧ u'.hw.dlm = (baud_divisor pdev.clk_val >>> 8) &&& 0xff
        ∧ u'.hw.tx = u.hw.tx ++ [0x78] := by
  refine ⟨?_, ?_⟩
  swap
  · obtain ⟨u', hret, _, hhw⟩ :=
      serial_probe_ok (banked_uart pdev.ioremap busy) pdev (busy - u.hw.reads)
        (busy - u.hw.reads + 1) u halloc hmap hclk
        (by
          intro k hk
          rw [serial_configure_baud_rate_banked_uart busy pdev u hclk, lsr_reads_banked_uart]
          have : u.hw.reads + k < busy := by omega
          simp [this])
        (by
          rw [serial_configure_baud_rate_banked_uart busy pdev u hclk, lsr_reads_banked_uart]
          have : ¬ u.hw.reads + (busy - u.hw.reads) < busy := by omega
          simp [this])
        (le_refl _)
    rw [serial_configure_baud_rate_banked_uart busy pdev u hclk, lsr_state_banked_uart] at hhw
    have h3 : 3 &&& UART_LCR_DLAB = 0 := by decide
    refine ⟨u', hret, ?_, ?_, ?_, ?_⟩ <;> rw [hhw] <;> simp [banked_uart, h3]
  obtain ⟨w', hret, hlog, _⟩ :=
    serial_probe_ok dev pdev N fuel w halloc hmap hclk hbusy hready hfuel
  have hev := events_since_append w w' _ hlog
  have htr : dlab_trace (reg_addr { regs := pdev.ioremap } UART_LCR) none (events_since w w')
      = [ (reg_addr { regs := pdev.ioremap } UART_OMAP_MDR1, 0x07, false),
          (reg_addr { regs := pdev.ioremap } UART_LCR, 0x00, false),
          (reg_addr { regs := pdev.ioremap } UART_LCR, 0x80, true),
          (reg_addr { regs := pdev.ioremap } UART_DLL,
            baud_divisor pdev.clk_val &&& 0xff, true),
          (reg_addr { regs := pdev.ioremap } UART_DLM,
            (baud_divisor pdev.clk_val >>> 8) &&& 0xff, true),
          (reg_addr { regs := pdev.ioremap } UART_LCR, 0x03, false),
          (reg_addr { regs := pdev.ioremap } UART_OMAP_MDR1, 0x00, false),
          (reg_addr { regs := pdev.ioremap } UART_FCR, 0x06, false),
          (reg_addr { regs := pdev.ioremap } UART_TX, 0x78, false) ] := by
    rw [hev]
    simp [attach_log, baud_rate_sequence, fifo_reset, dlab_trace, dlab_trace_polls, dlab_set]
    decide
  refine ⟨w', hret, htr, ?_, ?_, ?_, by decide⟩
  · rw [htr]
    simp [List.filter_cons]
  · rw [htr]
    simp
  · rw [htr]
    simp

/-- A 48 MHz clock (divisor 26 = 0x001a) and UARTs that are busy for two reads: the
DLAB annotation of the nine writes, and on the UART with a divisor latch the
divisor 0x1a, 0x00 in the latch and the one byte 0x78 transmitted. -/
theorem serial_probe_dlab_bracket_witness :
    (∃ w', serial_probe (scripted_uart 2) pdev_48mhz 3 w_scripted = some (0, w')
      ∧ dlab_trace (reg_addr { regs := pdev_48mhz.ioremap } UART_LCR) none
          (events_since w_scripted w')
        = [ (reg_addr { regs := pdev_48mhz.ioremap } UART_OMAP_MDR1, 0x07, false),
            (reg_addr { regs := pdev_48mhz.ioremap } UART_LCR, 0x00, false),
            (reg_addr { regs := pdev_48mhz.ioremap } UART_LCR, 0x80, true),
            (reg_addr { regs := pdev_48mhz.ioremap } UART_DLL,
              baud_divisor pdev_48mhz.clk_val &&& 0xff, true),
            (reg_addr { regs := pdev_48mhz.ioremap } UART_DLM,
              (baud_divisor pdev_48mhz.clk_val >>> 8) &&& 0xff, true),
            (reg_addr { regs := pdev_48mhz.ioremap } UART_LCR, 0x03, false),
            (reg_addr { regs := pdev_48mhz.ioremap } UART_OMAP_MDR1, 0x00, false),
            (reg_addr { regs := pdev_48mhz.ioremap } UART_FCR, 0x06, false),
            (reg_addr { regs := pdev_48mhz.ioremap } UART_TX, 0x78, false) ])
    ∧ ∃ u', serial_probe (banked_uart pdev_48mhz.ioremap 2) pdev_48mhz 3 w_banked
          = some (0, u')
        ∧ u'.hw.dll = 0x1a ∧ u'.hw.dlm = 0x00 ∧ u'.hw.tx = [0x78] := by
  obtain ⟨⟨w', h1, h2, _⟩, u', g1, _, g3, g4, g5⟩ :=
    serial_probe_dlab_bracket (scripted_uart 2) pdev_48mhz 2 3 2 w_scripted w_banked
      (by decide) (by decide) (by decide) (by decide) (by decide) (by decide)
  exact ⟨⟨w', h1, h2⟩, u', g1, g3, g4, g5⟩

end Serial
